import Mathlib

/-
Shallow embedding of the SQL Server client adapters of the
DaycheAcademy/Financial_Project repository.

Source files embedded:
  src/connection.py                         (PyODBCClient, PyMSSQLClient)
  src/dayche/exceptions/cryptoexceptions.py (BaseCryptoException and its kinds)

The native drivers (pyodbc, pymssql) are external libraries: their calls are
modelled by explicit outcome parameters (none = the native call succeeds,
some d = the native call raises an exception whose description str(e) is d),
and every native invocation an adapter method makes is recorded in a trace of
NativeCall values, in the order the Python code makes them.
-/

namespace Financial

/-- The exception kinds declared in src/dayche/exceptions/cryptoexceptions.py;
each is a subclass of BaseCryptoException that adds nothing. -/
inductive ErrKind
  | configFileNotFound
  | driverNotInstalled
  | dataBaseConnectionError
  | queryExecutionError
  | transactionError
  | apiURLNotFound
deriving DecidableEq

/-- The Python class name of each kind, as self.__class__.__name__ yields it. -/
def kindName : ErrKind → String
  | .configFileNotFound => "ConfigFileNotFound"
  | .driverNotInstalled => "DriverNotInstalled"
  | .dataBaseConnectionError => "DataBaseConnectionError"
  | .queryExecutionError => "QueryExecutionError"
  | .transactionError => "TransactionError"
  | .apiURLNotFound => "APIURLNotFound"

/-- BaseCryptoException from src/dayche/exceptions/cryptoexceptions.py:
a kind (the concrete subclass), a message, and an optional cause string. -/
structure BaseCryptoException where
  kind : ErrKind
  message : String
  cause : Option String
deriving DecidableEq

/-- Python truthiness of the cause field (str | None): None and the empty
string are falsy, every other string is truthy. -/
def causeTruthy : Option String → Bool
  | none => false
  | some s => !(s == "")

/-- BaseCryptoException.__str__ from src/dayche/exceptions/cryptoexceptions.py:
with a truthy cause it renders message and cause, otherwise message only. -/
def BaseCryptoException.str (e : BaseCryptoException) : String :=
  if causeTruthy e.cause then
    kindName e.kind ++ ": " ++ e.message ++ " caused by " ++ e.cause.getD ""
  else
    kindName e.kind ++ ": " ++ e.message

/-- A native driver handle (a pymssql or pyodbc connection or cursor object).
The id models Python object identity; released records whether the handle has
been closed. A handle object is always truthy in Python, released or not. -/
structure Handle where
  id : Nat
  released : Bool
deriving DecidableEq

/-- The exceptions that can propagate out of an adapter method:
an AttributeError raised by attribute access on a None field (identified by
the attribute name; the CPython quote characters of its rendered description
are omitted, no claim depends on them), a RuntimeError, a structured
taxonomy error, or a raw native driver exception carrying its description. -/
inductive PyErr
  | attributeError (attr : String)
  | runtimeError (msg : String)
  | structured (e : BaseCryptoException)
  | native (desc : String)
deriving DecidableEq

/-- The description str(e) of an AttributeError raised on a None field
(CPython quote characters omitted; the text is opaque to every claim). -/
def noneAttrMsg (a : String) : String :=
  "NoneType object has no attribute " ++ a

/-- One call into the native driver layer, as the adapter methods make them. -/
inductive NativeCall
  | connect (server database user password : String)
  | cursorExecuteP (sql : String) (params : List String)
  | cursorExecute1 (sql : String)
  | cursorExecuteOpt (sql : String) (params : Option (List String))
  | cursorExecuteMany (sql : String) (rows : List (List String))
  | cursorFetchall
  | connCommit
  | connRollback
  | cursorClose
  | connClose
deriving DecidableEq

/-- The command text handed to the native driver by a call, when the call
carries one. -/
def NativeCall.sqlText : NativeCall → Option String
  | .cursorExecuteP s _ => some s
  | .cursorExecute1 s => some s
  | .cursorExecuteOpt s _ => some s
  | .cursorExecuteMany s _ => some s
  | _ => none

/-- Modelled from the spec: the native drivers' handle release. Releasing a
live handle either succeeds (outcome = none), marking it released, or raises
a native exception described by the outcome; releasing an already-released
handle is a tolerated no-op, as the drivers' close methods behave and as the
spec's idempotent-close requirement presupposes. -/
def releaseHandle (h : Handle) (outcome : Option String) : Except String Handle :=
  if h.released then
    Except.ok h
  else
    match outcome with
    | none => Except.ok { h with released := true }
    | some d => Except.error d

/-- The PyMSSQLClient state: the conn and cursor fields (None until a
successful connect) and the autocommit flag. Logging is pure observation and
is not modelled; the LogManager setup in BaseSQLServerClient.__init__ is
wrapped in a try/except that swallows every failure, so it never affects the
fields or raises. -/
structure PyMSSQLClient where
  conn : Option Handle
  cursor : Option Handle
  autocommit : Bool
deriving DecidableEq

/-- PyMSSQLClient.__init__ from src/connection.py: if the pymssql import
fails, raise DriverNotInstalled with cause = str(ImportError); otherwise both
handle fields start as None. No native connection call is made either way
(the trace is empty). -/
def PyMSSQLClient.init (autocommit : Bool) (pymssqlInstalled : Bool)
    (importErrDesc : String) :
    Except PyErr PyMSSQLClient × List NativeCall :=
  if pymssqlInstalled then
    (Except.ok ⟨none, none, autocommit⟩, [])
  else
    (Except.error (PyErr.structured
      ⟨ErrKind.driverNotInstalled,
        "pymssql is not installed. pip install pymssql", some importErrDesc⟩), [])

/-- PyMSSQLClient.connect_sql_auth from src/connection.py: the guarded native
connect either yields a connection and a cursor handle, both stored, or fails,
in which case DataBaseConnectionError with cause = str(e) is raised. -/
def PyMSSQLClient.connect_sql_auth (c : PyMSSQLClient)
    (server database user password : String)
    (outcome : Except String (Handle × Handle)) :
    Except PyErr PyMSSQLClient × List NativeCall :=
  match outcome with
  | Except.ok (hconn, hcur) =>
      (Except.ok { c with conn := some hconn, cursor := some hcur },
        [NativeCall.connect server database user password])
  | Except.error d =>
      (Except.error (PyErr.structured
        ⟨ErrKind.dataBaseConnectionError, "pymssql connection failed", some d⟩),
        [NativeCall.connect server database user password])

/-- PyMSSQLClient.connect_windows_auth from src/connection.py: it logs a
warning and unconditionally raises QueryExecutionError (no cause), touching
neither the native driver nor the client state: the trace is empty. The
kwargs are accepted and ignored. -/
def PyMSSQLClient.connect_windows_auth (_c : PyMSSQLClient)
    (_server _database _user _password : String)
    (_kwargs : List (String × String)) :
    Except PyErr PyMSSQLClient × List NativeCall :=
  (Except.error (PyErr.structured
    ⟨ErrKind.queryExecutionError, "pymssql connection failed", none⟩), [])

/-- PyMSSQLClient.execute from src/connection.py: inside try/except, call
cursor.execute(sql, params) when params is not None, else cursor.execute(sql);
any exception (including the AttributeError when cursor is still None) is
caught and re-raised as QueryExecutionError with cause = str(e). -/
def PyMSSQLClient.execute (c : PyMSSQLClient) (sql : String)
    (params : Option (List String)) (outcome : Option String) :
    Except PyErr Unit × List NativeCall :=
  match c.cursor with
  | none =>
      (Except.error (PyErr.structured
        ⟨ErrKind.queryExecutionError, "pymssql query execution failed",
          some (noneAttrMsg "execute")⟩), [])
  | some _ =>
      let call := match params with
        | some ps => NativeCall.cursorExecuteP sql ps
        | none => NativeCall.cursorExecute1 sql
      match outcome with
      | none => (Except.ok (), [call])
      | some d =>
          (Except.error (PyErr.structured
            ⟨ErrKind.queryExecutionError, "pymssql query execution failed",
              some d⟩), [call])

/-- PyMSSQLClient.executemany from src/connection.py: the first try block
only computes a length for logging and swallows its own failures; the second
try block calls cursor.executemany(sql, list(rows)) and re-raises any failure
as QueryExecutionError with cause = str(e). The callee self.cursor.executemany
is evaluated before list(rows), so a None cursor wins over None rows. -/
def PyMSSQLClient.executemany (c : PyMSSQLClient) (sql : String)
    (rows : Option (List (List String))) (outcome : Option String) :
    Except PyErr Unit × List NativeCall :=
  match c.cursor with
  | none =>
      (Except.error (PyErr.structured
        ⟨ErrKind.queryExecutionError, "pymssql query executemany failed",
          some (noneAttrMsg "executemany")⟩), [])
  | some _ =>
      match rows with
      | none =>
          (Except.error (PyErr.structured
            ⟨ErrKind.queryExecutionError, "pymssql query executemany failed",
              some "NoneType object is not iterable"⟩), [])
      | some rs =>
          match outcome with
          | none => (Except.ok (), [NativeCall.cursorExecuteMany sql rs])
          | some d =>
              (Except.error (PyErr.structured
                ⟨ErrKind.queryExecutionError, "pymssql query executemany failed",
                  some d⟩), [NativeCall.cursorExecuteMany sql rs])

/-- PyMSSQLClient.fetchall from src/connection.py: list(cursor.fetchall())
inside try/except; failures re-raise as QueryExecutionError with
cause = str(e). -/
def PyMSSQLClient.fetchall (c : PyMSSQLClient)
    (outcome : Except String (List (List String))) :
    Except PyErr (List (List String)) × List NativeCall :=
  match c.cursor with
  | none =>
      (Except.error (PyErr.structured
        ⟨ErrKind.queryExecutionError, "pymssql fetchall query execution failed",
          some (noneAttrMsg "fetchall")⟩), [])
  | some _ =>
      match outcome with
      | Except.ok rows => (Except.ok rows, [NativeCall.cursorFetchall])
      | Except.error d =>
          (Except.error (PyErr.structured
            ⟨ErrKind.queryExecutionError, "pymssql fetchall query execution failed",
              some d⟩), [NativeCall.cursorFetchall])

/-- PyMSSQLClient.commit from src/connection.py: conn.commit() inside
try/except; failures re-raise as TransactionError with cause = str(e). -/
def PyMSSQLClient.commit (c : PyMSSQLClient) (outcome : Option String) :
    Except PyErr Unit × List NativeCall :=
  match c.conn with
  | none =>
      (Except.error (PyErr.structured
        ⟨ErrKind.transactionError, "pymssql commit failed",
          some (noneAttrMsg "commit")⟩), [])
  | some _ =>
      match outcome with
      | none => (Except.ok (), [NativeCall.connCommit])
      | some d =>
          (Except.error (PyErr.structured
            ⟨ErrKind.transactionError, "pymssql commit failed", some d⟩),
            [NativeCall.connCommit])

/-- PyMSSQLClient.rollback from src/connection.py: conn.rollback() inside
try/except, whose failure re-raises as TransactionError (its message reads
"pymssql commit failed" in the source) with cause = str(e); then, AFTER the
try/except, the source calls self.conn.rollback() a second time, outside any
guard, so a failure of that second call propagates as the raw native error.
outcome1 governs the guarded call, outcome2 the stray unguarded one. -/
def PyMSSQLClient.rollback (c : PyMSSQLClient)
    (outcome1 outcome2 : Option String) :
    Except PyErr Unit × List NativeCall :=
  match c.conn with
  | none =>
      (Except.error (PyErr.structured
        ⟨ErrKind.transactionError, "pymssql commit failed",
          some (noneAttrMsg "rollback")⟩), [])
  | some _ =>
      match outcome1 with
      | some d =>
          (Except.error (PyErr.structured
            ⟨ErrKind.transactionError, "pymssql commit failed", some d⟩),
            [NativeCall.connRollback])
      | none =>
          match outcome2 with
          | none => (Except.ok (), [NativeCall.connRollback, NativeCall.connRollback])
          | some d =>
              (Except.error (PyErr.native d),
                [NativeCall.connRollback, NativeCall.connRollback])

/-- PyMSSQLClient.close from src/connection.py: try cursor.close() when the
cursor field is truthy; in the finally block, an inner try/except calls
conn.close() when the conn field is truthy and swallows (logs as warning) any
failure of it. The outer try has no except clause, so a cursor.close()
failure propagates after the finally block runs. Neither field is ever
reassigned. -/
def PyMSSQLClient.close (c : PyMSSQLClient)
    (cursorOutcome connOutcome : Option String) :
    Except PyErr Unit × PyMSSQLClient × List NativeCall :=
  let cursorStep : Option String × Option Handle × List NativeCall :=
    match c.cursor with
    | none => (none, none, [])
    | some h =>
        match releaseHandle h cursorOutcome with
        | Except.ok h2 => (none, some h2, [NativeCall.cursorClose])
        | Except.error d => (some d, some h, [NativeCall.cursorClose])
  let connStep : Option Handle × List NativeCall :=
    match c.conn with
    | none => (none, [])
    | some h =>
        match releaseHandle h connOutcome with
        | Except.ok h2 => (some h2, [NativeCall.connClose])
        | Except.error _ => (some h, [NativeCall.connClose])
  let c2 : PyMSSQLClient :=
    { c with cursor := cursorStep.2.1, conn := connStep.1 }
  match cursorStep.1 with
  | some d => (Except.error (PyErr.native d), c2, cursorStep.2.2 ++ connStep.2)
  | none => (Except.ok (), c2, cursorStep.2.2 ++ connStep.2)

/-- The PyODBCClient state from src/connection.py: conn and cursor fields
(None until a successful connect), the driver string and the autocommit
flag. -/
structure PyODBCClient where
  conn : Option Handle
  cursor : Option Handle
  driver : String
  autocommit : Bool
deriving DecidableEq

/-- PyODBCClient.__init__ from src/connection.py: if the pyodbc import fails,
raise RuntimeError (a generic failure, not a taxonomy error); otherwise both
handle fields start as None. No native connection call is made either way. -/
def PyODBCClient.init (driver : String) (autocommit : Bool)
    (pyodbcInstalled : Bool) :
    Except PyErr PyODBCClient × List NativeCall :=
  if pyodbcInstalled then
    (Except.ok ⟨none, none, driver, autocommit⟩, [])
  else
    (Except.error (PyErr.runtimeError
      "pyodbc is not installed. pip install pyodbc"), [])

/-- PyODBCClient.execute from src/connection.py: the single unguarded line
self.cursor.execute(sql, params). With cursor still None the attribute access
raises a raw AttributeError; with a cursor, a native failure propagates raw. -/
def PyODBCClient.execute (c : PyODBCClient) (sql : String)
    (params : Option (List String)) (outcome : Option String) :
    Except PyErr Unit × List NativeCall :=
  match c.cursor with
  | none => (Except.error (PyErr.attributeError (noneAttrMsg "execute")), [])
  | some _ =>
      match outcome with
      | none => (Except.ok (), [NativeCall.cursorExecuteOpt sql params])
      | some d =>
          (Except.error (PyErr.native d), [NativeCall.cursorExecuteOpt sql params])

/-- PyODBCClient.executemany from src/connection.py: unguarded; the first
line sets self.cursor.fast_executemany, so with a None cursor the raw
AttributeError names that attribute. -/
def PyODBCClient.executemany (c : PyODBCClient) (sql : String)
    (rows : List (List String)) (outcome : Option String) :
    Except PyErr Unit × List NativeCall :=
  match c.cursor with
  | none =>
      (Except.error (PyErr.attributeError (noneAttrMsg "fast_executemany")), [])
  | some _ =>
      match outcome with
      | none => (Except.ok (), [NativeCall.cursorExecuteMany sql rows])
      | some d =>
          (Except.error (PyErr.native d), [NativeCall.cursorExecuteMany sql rows])

/-- PyODBCClient.fetchall from src/connection.py: unguarded
list(self.cursor.fetchall()). -/
def PyODBCClient.fetchall (c : PyODBCClient)
    (outcome : Except String (List (List String))) :
    Except PyErr (List (List String)) × List NativeCall :=
  match c.cursor with
  | none => (Except.error (PyErr.attributeError (noneAttrMsg "fetchall")), [])
  | some _ =>
      match outcome with
      | Except.ok rows => (Except.ok rows, [NativeCall.cursorFetchall])
      | Except.error d => (Except.error (PyErr.native d), [NativeCall.cursorFetchall])

/-- PyODBCClient.commit from src/connection.py: unguarded self.conn.commit(). -/
def PyODBCClient.commit (c : PyODBCClient) (outcome : Option String) :
    Except PyErr Unit × List NativeCall :=
  match c.conn with
  | none => (Except.error (PyErr.attributeError (noneAttrMsg "commit")), [])
  | some _ =>
      match outcome with
      | none => (Except.ok (), [NativeCall.connCommit])
      | some d => (Except.error (PyErr.native d), [NativeCall.connCommit])

/-- PyODBCClient.rollback from src/connection.py: unguarded
self.conn.rollback(). -/
def PyODBCClient.rollback (c : PyODBCClient) (outcome : Option String) :
    Except PyErr Unit × List NativeCall :=
  match c.conn with
  | none => (Except.error (PyErr.attributeError (noneAttrMsg "rollback")), [])
  | some _ =>
      match outcome with
      | none => (Except.ok (), [NativeCall.connRollback])
      | some d => (Except.error (PyErr.native d), [NativeCall.connRollback])

/-- PyODBCClient.close from src/connection.py: try cursor.close() when the
cursor field is truthy, finally conn.close() when the conn field is truthy;
there is no except clause anywhere, so a conn.close() failure propagates
(superseding, per Python finally semantics, a cursor.close() failure), and a
cursor.close() failure propagates when the finally block finishes normally. -/
def PyODBCClient.close (c : PyODBCClient)
    (cursorOutcome connOutcome : Option String) :
    Except PyErr Unit × PyODBCClient × List NativeCall :=
  let cursorStep : Option String × Option Handle × List NativeCall :=
    match c.cursor with
    | none => (none, none, [])
    | some h =>
        match releaseHandle h cursorOutcome with
        | Except.ok h2 => (none, some h2, [NativeCall.cursorClose])
        | Except.error d => (some d, some h, [NativeCall.cursorClose])
  let connStep : Option String × Option Handle × List NativeCall :=
    match c.conn with
    | none => (none, none, [])
    | some h =>
        match releaseHandle h connOutcome with
        | Except.ok h2 => (none, some h2, [NativeCall.connClose])
        | Except.error d => (some d, some h, [NativeCall.connClose])
  let c2 : PyODBCClient :=
    { c with cursor := cursorStep.2.1, conn := connStep.2.1 }
  match connStep.1 with
  | some d => (Except.error (PyErr.native d), c2, cursorStep.2.2 ++ connStep.2.2)
  | none =>
      match cursorStep.1 with
      | some d => (Except.error (PyErr.native d), c2, cursorStep.2.2 ++ connStep.2.2)
      | none => (Except.ok (), c2, cursorStep.2.2 ++ connStep.2.2)

/-- Helper: releasing a live handle whose release fails yields that failure. -/
theorem releaseHandle_live_fail (i : Nat) (d : String) :
    releaseHandle ⟨i, false⟩ (some d) = Except.error d := rfl

/-- Helper: releasing a live handle whose release succeeds marks it released. -/
theorem releaseHandle_live_ok (i : Nat) :
    releaseHandle ⟨i, false⟩ none = Except.ok ⟨i, true⟩ := rfl

/-- C1 counterexample: on a freshly constructed PyODBCClient (conn and cursor
still None), execute raises a raw AttributeError on the None cursor, not a
structured taxonomy failure, refuting the claim for the PyODBC adapter. -/
theorem C1_counterexample :
    (PyODBCClient.execute ⟨none, none, "ODBC Driver 18 for SQL Server", false⟩
        "SELECT 1" none none).1
      = Except.error (PyErr.attributeError (noneAttrMsg "execute")) := rfl

/-- C1 (amended): before a successful connect, every PyMSSQLClient command,
fetch, commit or rollback call fails with a structured taxonomy error
(QueryExecutionError for execute, executemany and fetchall; TransactionError
for commit and rollback), never an unguarded crash; the PyODBCClient calls
instead crash with a raw AttributeError on the None handle. -/
theorem C1_unconnected_calls_amended (ac : Bool) (driver sql : String)
    (params : Option (List String)) (rows : Option (List (List String)))
    (rows2 : List (List String)) (o o2 : Option String)
    (fo : Except String (List (List String))) :
    ((PyMSSQLClient.execute ⟨none, none, ac⟩ sql params o).1
      = Except.error (PyErr.structured ⟨ErrKind.queryExecutionError,
          "pymssql query execution failed", some (noneAttrMsg "execute")⟩))
    ∧ ((PyMSSQLClient.executemany ⟨none, none, ac⟩ sql rows o).1
      = Except.error (PyErr.structured ⟨ErrKind.queryExecutionError,
          "pymssql query executemany failed", some (noneAttrMsg "executemany")⟩))
    ∧ ((PyMSSQLClient.fetchall ⟨none, none, ac⟩ fo).1
      = Except.error (PyErr.structured ⟨ErrKind.queryExecutionError,
          "pymssql fetchall query execution failed", some (noneAttrMsg "fetchall")⟩))
    ∧ ((PyMSSQLClient.commit ⟨none, none, ac⟩ o).1
      = Except.error (PyErr.structured ⟨ErrKind.transactionError,
          "pymssql commit failed", some (noneAttrMsg "commit")⟩))
    ∧ ((PyMSSQLClient.rollback ⟨none, none, ac⟩ o o2).1
      = Except.error (PyErr.structured ⟨ErrKind.transactionError,
          "pymssql commit failed", some (noneAttrMsg "rollback")⟩))
    ∧ ((PyODBCClient.execute ⟨none, none, driver, ac⟩ sql params o).1
      = Except.error (PyErr.attributeError (noneAttrMsg "execute")))
    ∧ ((PyODBCClient.executemany ⟨none, none, driver, ac⟩ sql rows2 o).1
      = Except.error (PyErr.attributeError (noneAttrMsg "fast_executemany")))
    ∧ ((PyODBCClient.fetchall ⟨none, none, driver, ac⟩ fo).1
      = Except.error (PyErr.attributeError (noneAttrMsg "fetchall")))
    ∧ ((PyODBCClient.commit ⟨none, none, driver, ac⟩ o).1
      = Except.error (PyErr.attributeError (noneAttrMsg "commit")))
    ∧ ((PyODBCClient.rollback ⟨none, none, driver, ac⟩ o).1
      = Except.error (PyErr.attributeError (noneAttrMsg "rollback"))) :=
  ⟨rfl, rfl, rfl, rfl, rfl, rfl, rfl, rfl, rfl, rfl⟩

/-- C2 counterexample: constructing a PyODBCClient with the pyodbc driver
absent raises a generic RuntimeError, not DriverNotInstalled, refuting the
claim for the PyODBC adapter. -/
theorem C2_counterexample :
    PyODBCClient.init "ODBC Driver 18 for SQL Server" false false
      = (Except.error (PyErr.runtimeError
          "pyodbc is not installed. pip install pyodbc"), []) := rfl

/-- C2 (amended): with the native driver absent at construction time,
PyMSSQLClient raises DriverNotInstalled with the import failure as cause,
while PyODBCClient raises a generic RuntimeError; in both cases no native
connection activity occurs (the native-call trace is empty). -/
theorem C2_missing_driver_amended (ac : Bool) (driver importErrDesc : String) :
    PyMSSQLClient.init ac false importErrDesc
      = (Except.error (PyErr.structured ⟨ErrKind.driverNotInstalled,
          "pymssql is not installed. pip install pymssql", some importErrDesc⟩), [])
    ∧ PyODBCClient.init driver ac false
      = (Except.error (PyErr.runtimeError
          "pyodbc is not installed. pip install pyodbc"), []) :=
  ⟨rfl, rfl⟩

/-- C3 counterexample: on a connected PyMSSQLClient whose cursor release
fails, close re-raises that failure as the raw native error, refuting the
claim that no exception ever propagates out of close. -/
theorem C3_counterexample :
    ((PyMSSQLClient.mk (some ⟨0, false⟩) (some ⟨1, false⟩) false).close
        (some "cursor close failed") none).1
      = Except.error (PyErr.native "cursor close failed") := rfl

/-- C3 (amended): PyMSSQLClient.close swallows a failure raised while
releasing the Connection Handle (it is only logged), and returns normally
whenever the Cursor Handle release does not fail; but a failure releasing a
live Cursor Handle propagates out of close, and PyODBCClient.close re-raises
a Connection Handle release failure as well. -/
theorem C3_close_swallow_amended (cm : PyMSSQLClient) (co : PyODBCClient)
    (i j k : Nat) (hmc : cm.cursor = some ⟨i, false⟩)
    (hoc : co.conn = some ⟨j, false⟩) (hocc : co.cursor = some ⟨k, false⟩)
    (d e f : String) (no : Option String) :
    (cm.close (some d) no).1 = Except.error (PyErr.native d)
    ∧ (∀ (c2 : PyMSSQLClient) (o2 : Option String),
        (c2.close none o2).1 = Except.ok ())
    ∧ (co.close none (some e)).1 = Except.error (PyErr.native e)
    ∧ (co.close (some f) none).1 = Except.error (PyErr.native f) := by
  refine ⟨?_, ?_, ?_, ?_⟩
  · simp [PyMSSQLClient.close, hmc, releaseHandle]
  · intro c2 o2
    cases hc : c2.cursor with
    | none => simp [PyMSSQLClient.close, hc]
    | some h =>
        cases hr : h.released <;>
          simp [PyMSSQLClient.close, hc, releaseHandle, hr]
  · simp [PyODBCClient.close, hoc, releaseHandle]
  · simp [PyODBCClient.close, hoc, hocc, releaseHandle_live_fail,
      releaseHandle_live_ok]

/-- C3 witness: the amended close behaviour at concrete connected clients. -/
theorem C3_close_swallow_witness :
    ((PyMSSQLClient.mk (some ⟨0, false⟩) (some ⟨1, false⟩) false).close
        (some "cursor boom") none).1 = Except.error (PyErr.native "cursor boom")
    ∧ (∀ (c2 : PyMSSQLClient) (o2 : Option String),
        (c2.close none o2).1 = Except.ok ())
    ∧ ((PyODBCClient.mk (some ⟨2, false⟩) (some ⟨3, false⟩) "drv" false).close
        none (some "conn boom")).1 = Except.error (PyErr.native "conn boom")
    ∧ ((PyODBCClient.mk (some ⟨2, false⟩) (some ⟨3, false⟩) "drv" false).close
        (some "odbc cursor boom") none).1
      = Except.error (PyErr.native "odbc cursor boom") :=
  C3_close_swallow_amended
    (PyMSSQLClient.mk (some ⟨0, false⟩) (some ⟨1, false⟩) false)
    (PyODBCClient.mk (some ⟨2, false⟩) (some ⟨3, false⟩) "drv" false)
    1 2 3 rfl rfl rfl "cursor boom" "conn boom" "odbc cursor boom" none

/-- C4 (code bug): on a connected PyMSSQLClient whose guarded rollback
succeeds, the stray second self.conn.rollback() after the try/except runs
unguarded: its failure propagates as a raw native error instead of a
TransactionError, and even on success the native rollback is invoked twice,
the second time outside the guarded wrapper. -/
theorem C4_code_bug_eval :
    ((PyMSSQLClient.mk (some ⟨0, false⟩) (some ⟨1, false⟩) false).rollback
        none (some "rollback on closed transaction")).1
      = Except.error (PyErr.native "rollback on closed transaction")
    ∧ ((PyMSSQLClient.mk (some ⟨0, false⟩) (some ⟨1, false⟩) false).rollback
        none none).2
      = [NativeCall.connRollback, NativeCall.connRollback] :=
  ⟨rfl, rfl⟩

/-- C5: for every client state, every server, database, user and password
argument and any keyword options, PyMSSQLClient.connect_windows_auth fails
with QueryExecutionError while making no native call at all (empty trace). -/
theorem C5_windows_auth_unsupported (c : PyMSSQLClient)
    (server database user password : String) (kwargs : List (String × String)) :
    c.connect_windows_auth server database user password kwargs
      = (Except.error (PyErr.structured ⟨ErrKind.queryExecutionError,
          "pymssql connection failed", none⟩), []) := rfl

/-- C6 counterexample: a native failure whose description str(e) is the empty
string propagates from execute as a QueryExecutionError with cause some "",
but its rendering omits the caused-by part (Python truthiness treats the
empty-string cause as absent), refuting the claimed universal rendering. -/
theorem C6_counterexample :
    ((PyMSSQLClient.mk (some ⟨0, false⟩) (some ⟨1, false⟩) false).execute
        "SELECT 1" none (some "")).1
      = Except.error (PyErr.structured ⟨ErrKind.queryExecutionError,
          "pymssql query execution failed", some ""⟩)
    ∧ BaseCryptoException.str ⟨ErrKind.queryExecutionError,
        "pymssql query execution failed", some ""⟩
      = "QueryExecutionError: pymssql query execution failed"
    ∧ BaseCryptoException.str ⟨ErrKind.queryExecutionError,
        "pymssql query execution failed", some ""⟩
      ≠ "QueryExecutionError: pymssql query execution failed caused by " := by
  refine ⟨rfl, rfl, ?_⟩
  decide

/-- C6 (amended): a native failure d during PyMSSQLClient.execute propagates
as QueryExecutionError with cause = d; when d is non-empty the error renders
as "QueryExecutionError: pymssql query execution failed caused by d", and in
general a taxonomy error renders as "Kind: message caused by cause" exactly
when the cause is a non-empty string, and as "Kind: message" when the cause
is None or empty. -/
theorem C6_render_amended (c : PyMSSQLClient) (h : Handle) (hc : c.cursor = some h)
    (sql : String) (params : Option (List String)) (d : String) :
    ((c.execute sql params (some d)).1
      = Except.error (PyErr.structured ⟨ErrKind.queryExecutionError,
          "pymssql query execution failed", some d⟩))
    ∧ (d ≠ "" → BaseCryptoException.str ⟨ErrKind.queryExecutionError,
          "pymssql query execution failed", some d⟩
        = "QueryExecutionError: pymssql query execution failed caused by " ++ d)
    ∧ (∀ (k : ErrKind) (m : String),
        BaseCryptoException.str ⟨k, m, none⟩ = kindName k ++ ": " ++ m)
    ∧ (∀ (k : ErrKind) (m d2 : String), d2 ≠ "" →
        BaseCryptoException.str ⟨k, m, some d2⟩
          = kindName k ++ ": " ++ m ++ " caused by " ++ d2)
    ∧ (∀ (k : ErrKind) (m : String),
        BaseCryptoException.str ⟨k, m, some ""⟩ = kindName k ++ ": " ++ m) := by
  refine ⟨?_, ?_, ?_, ?_, ?_⟩
  · cases params <;> simp [PyMSSQLClient.execute, hc]
  · intro hd
    have hb : (d == "") = false := by simpa using hd
    unfold BaseCryptoException.str causeTruthy
    simp only [hb]
    rfl
  · intro k m
    rfl
  · intro k m d2 hd2
    have hb : (d2 == "") = false := by simpa using hd2
    unfold BaseCryptoException.str causeTruthy
    simp only [hb]
    rfl
  · intro k m
    rfl

/-- C6 witness: the amended rendering behaviour at a concrete connected
client and a concrete non-empty native failure description. -/
theorem C6_render_witness :
    ((PyMSSQLClient.execute
        (PyMSSQLClient.mk (some ⟨0, false⟩) (some ⟨1, false⟩) false)
        "SELECT 2" none (some "timeout")).1
      = Except.error (PyErr.structured ⟨ErrKind.queryExecutionError,
          "pymssql query execution failed", some "timeout"⟩))
    ∧ ("timeout" ≠ "" → BaseCryptoException.str ⟨ErrKind.queryExecutionError,
          "pymssql query execution failed", some "timeout"⟩
        = "QueryExecutionError: pymssql query execution failed caused by "
            ++ "timeout")
    ∧ (∀ (k : ErrKind) (m : String),
        BaseCryptoException.str ⟨k, m, none⟩ = kindName k ++ ": " ++ m)
    ∧ (∀ (k : ErrKind) (m d2 : String), d2 ≠ "" →
        BaseCryptoException.str ⟨k, m, some d2⟩
          = kindName k ++ ": " ++ m ++ " caused by " ++ d2)
    ∧ (∀ (k : ErrKind) (m : String),
        BaseCryptoException.str ⟨k, m, some ""⟩ = kindName k ++ ": " ++ m) :=
  C6_render_amended
    (PyMSSQLClient.mk (some ⟨0, false⟩) (some ⟨1, false⟩) false)
    ⟨1, false⟩ rfl "SELECT 2" none "timeout"

/-- C7: during close of a client holding both handles, the Cursor Handle
release is attempted before the Connection Handle release, and when the
cursor release fails the connection release still occurs: both adapters emit
the native-call trace cursorClose followed by connClose, and PyMSSQLClient
re-raises the cursor failure only after the connection release ran. -/
theorem C7_close_ordering (cm : PyMSSQLClient) (co : PyODBCClient)
    (i j : Nat) (h1 : cm.cursor = some ⟨i, false⟩) (h2 : co.cursor = some ⟨j, false⟩)
    (hc1 : cm.conn.isSome = true) (hc2 : co.conn.isSome = true)
    (d e : String) (no : Option String) :
    (cm.close (some d) no).2.2 = [NativeCall.cursorClose, NativeCall.connClose]
    ∧ (cm.close (some d) no).1 = Except.error (PyErr.native d)
    ∧ (co.close (some e) none).2.2 = [NativeCall.cursorClose, NativeCall.connClose] := by
  obtain ⟨hco, hcoe⟩ := Option.isSome_iff_exists.mp hc1
  obtain ⟨hoo, hooe⟩ := Option.isSome_iff_exists.mp hc2
  refine ⟨?_, ?_, ?_⟩
  · rcases hx : releaseHandle hco no with d2 | hh <;>
      simp [PyMSSQLClient.close, h1, hcoe, hx, releaseHandle_live_fail]
  · rcases hx : releaseHandle hco no with d2 | hh <;>
      simp [PyMSSQLClient.close, h1, hcoe, hx, releaseHandle_live_fail]
  · rcases hx : releaseHandle hoo none with d2 | hh <;>
      simp [PyODBCClient.close, h2, hooe, hx, releaseHandle_live_fail]

/-- C7 witness: the ordered, non-short-circuiting teardown at concrete
connected clients whose cursor release fails. -/
theorem C7_close_ordering_witness :
    ((PyMSSQLClient.mk (some ⟨0, false⟩) (some ⟨1, false⟩) false).close
        (some "cursor fail") none).2.2
      = [NativeCall.cursorClose, NativeCall.connClose]
    ∧ ((PyMSSQLClient.mk (some ⟨0, false⟩) (some ⟨1, false⟩) false).close
        (some "cursor fail") none).1 = Except.error (PyErr.native "cursor fail")
    ∧ ((PyODBCClient.mk (some ⟨2, false⟩) (some ⟨3, false⟩) "drv" false).close
        (some "odbc cursor fail") none).2.2
      = [NativeCall.cursorClose, NativeCall.connClose] :=
  C7_close_ordering
    (PyMSSQLClient.mk (some ⟨0, false⟩) (some ⟨1, false⟩) false)
    (PyODBCClient.mk (some ⟨2, false⟩) (some ⟨3, false⟩) "drv" false)
    1 3 rfl rfl rfl rfl "cursor fail" "odbc cursor fail" none

/-- C8: close is idempotent on a connected PyMSSQLClient: the first close
succeeds, a second close raises no failure whatever the native outcomes
(releasing an already-released handle is a tolerated no-op), and after the
two calls both the Connection and the Cursor Handle are in the released
state. -/
theorem C8_close_idempotent (i j : Nat) (ac : Bool) (o1 o2 : Option String) :
    (((PyMSSQLClient.mk (some ⟨i, false⟩) (some ⟨j, false⟩) ac).close none none).1
      = Except.ok ())
    ∧ (((((PyMSSQLClient.mk (some ⟨i, false⟩) (some ⟨j, false⟩) ac).close
        none none).2.1).close o1 o2).1 = Except.ok ())
    ∧ (((((PyMSSQLClient.mk (some ⟨i, false⟩) (some ⟨j, false⟩) ac).close
        none none).2.1).close o1 o2).2.1.conn = some ⟨i, true⟩)
    ∧ (((((PyMSSQLClient.mk (some ⟨i, false⟩) (some ⟨j, false⟩) ac).close
        none none).2.1).close o1 o2).2.1.cursor = some ⟨j, true⟩) :=
  ⟨rfl, rfl, rfl, rfl⟩

/-- C9: both adapters hand the SQL text to the native driver unchanged: every
native call emitted by execute carries exactly the input command text, and
the sequence of command texts handed to the driver is identical across runs
that differ only in the supplied parameter values (no interpolation of
parameters into the command text). -/
theorem C9_sql_passthrough (cm : PyMSSQLClient) (co : PyODBCClient)
    (sql : String) (p p2 : Option (List String)) (o : Option String) :
    (((cm.execute sql p o).2).all (fun k => k.sqlText == some sql) = true)
    ∧ (((co.execute sql p o).2).all (fun k => k.sqlText == some sql) = true)
    ∧ ((cm.execute sql p o).2.map NativeCall.sqlText
        = (cm.execute sql p2 o).2.map NativeCall.sqlText)
    ∧ ((co.execute sql p o).2.map NativeCall.sqlText
        = (co.execute sql p2 o).2.map NativeCall.sqlText) := by
  refine ⟨?_, ?_, ?_, ?_⟩ <;>
    cases hm : cm.cursor <;> cases ho : co.cursor <;>
      cases p <;> cases p2 <;> cases o <;>
        simp [PyMSSQLClient.execute, PyODBCClient.execute, hm, ho,
          NativeCall.sqlText]

/-- C10: the conn and cursor fields are assigned only by the constructor (to
None) and by connect; close leaves both fields referencing the same handle
objects (same identity), never resetting them to None, and a successful
close leaves those same objects in the released state. -/
theorem C10_handle_frame (c : PyMSSQLClient) (h1 h2 : Handle)
    (e1 : c.conn = some h1) (e2 : c.cursor = some h2)
    (co no : Option String) (ac : Bool)
    (desc server database user password : String)
    (c0 : PyMSSQLClient) (hconn hcur : Handle) :
    ((c.close co no).2.1.conn.map Handle.id = some h1.id)
    ∧ ((c.close co no).2.1.cursor.map Handle.id = some h2.id)
    ∧ ((c.close none none).2.1.conn = some ⟨h1.id, true⟩)
    ∧ ((c.close none none).2.1.cursor = some ⟨h2.id, true⟩)
    ∧ (PyMSSQLClient.init ac true desc = (Except.ok ⟨none, none, ac⟩, []))
    ∧ ((c0.connect_sql_auth server database user password
          (Except.ok (hconn, hcur))).1
        = Except.ok { c0 with conn := some hconn, cursor := some hcur }) := by
  obtain ⟨i1, r1⟩ := h1
  obtain ⟨i2, r2⟩ := h2
  refine ⟨?_, ?_, ?_, ?_, rfl, rfl⟩ <;>
    cases r1 <;> cases r2 <;> cases co <;> cases no <;>
      simp [PyMSSQLClient.close, releaseHandle, e1, e2]

/-- C10 witness: the frame property at a concrete connected client. -/
theorem C10_handle_frame_witness :
    (((PyMSSQLClient.mk (some ⟨4, false⟩) (some ⟨5, false⟩) false).close
        (some "x") none).2.1.conn.map Handle.id = some 4)
    ∧ (((PyMSSQLClient.mk (some ⟨4, false⟩) (some ⟨5, false⟩) false).close
        (some "x") none).2.1.cursor.map Handle.id = some 5)
    ∧ (((PyMSSQLClient.mk (some ⟨4, false⟩) (some ⟨5, false⟩) false).close
        none none).2.1.conn = some ⟨4, true⟩)
    ∧ (((PyMSSQLClient.mk (some ⟨4, false⟩) (some ⟨5, false⟩) false).close
        none none).2.1.cursor = some ⟨5, true⟩)
    ∧ (PyMSSQLClient.init false true "imp" = (Except.ok ⟨none, none, false⟩, []))
    ∧ (((PyMSSQLClient.mk none none false).connect_sql_auth
          "srv" "db" "sa" "pw" (Except.ok (⟨6, false⟩, ⟨7, false⟩))).1
        = Except.ok (PyMSSQLClient.mk (some ⟨6, false⟩) (some ⟨7, false⟩) false)) :=
  C10_handle_frame
    (PyMSSQLClient.mk (some ⟨4, false⟩) (some ⟨5, false⟩) false)
    ⟨4, false⟩ ⟨5, false⟩ rfl rfl (some "x") none false
    "imp" "srv" "db" "sa" "pw"
    (PyMSSQLClient.mk none none false) ⟨6, false⟩ ⟨7, false⟩

end Financial
